import Mathlib

/-!
Verification development for the napkin-ai-mcp repository.

The definitions below are a shallow embedding of the TypeScript sources:
  - `src/types.ts`  (zod schemas for requests, responses and statuses)
  - `src/client.ts` (NapkinClient: request/generate/getStatus/generateAndWait)
  - `src/server.ts` (the generate_and_save tool handler)
  - `src/storage/local.ts` and `src/storage/index.ts` (LocalStorageProvider)

HTTP traffic is modelled by explicit traces of fetch outcomes; wall-clock
time by explicit elapsed-millisecond samples taken where the code calls
Date.now(); the filesystem by a finite map from path strings to byte lists.
-/

namespace NapkinMcp

/-- JSON values, the payloads that response.json() can produce. -/
inductive JsonVal where
  | null
  | jbool (b : Bool)
  | jnum (n : Int)
  | jstr (s : String)
  | jarr (xs : List JsonVal)
  | jobj (fields : List (String × JsonVal))
deriving Repr

/-- Escapes one character for inclusion in a JSON string literal
(quote and backslash only; enough for the serialisations used here). -/
def escapeChar (c : Char) : String :=
  if c = Char.ofNat 34 then String.singleton (Char.ofNat 92) ++ String.singleton (Char.ofNat 34)
  else if c = Char.ofNat 92 then String.singleton (Char.ofNat 92) ++ String.singleton (Char.ofNat 92)
  else String.singleton c

/-- Escapes a string for inclusion in a JSON document. -/
def escapeString (s : String) : String :=
  String.join (s.toList.map escapeChar)

mutual

/-- Model of JSON.stringify over `JsonVal`. -/
def stringifyJson : JsonVal → String
  | .null => "null"
  | .jbool true => "true"
  | .jbool false => "false"
  | .jnum n => toString n
  | .jstr s => "\"" ++ escapeString s ++ "\""
  | .jarr xs => "[" ++ stringifyArr xs ++ "]"
  | .jobj fs => "\x7b" ++ stringifyObj fs ++ "\x7d"

/-- Serialises the elements of a JSON array, comma separated. -/
def stringifyArr : List JsonVal → String
  | [] => ""
  | [x] => stringifyJson x
  | x :: y :: rest => stringifyJson x ++ "," ++ stringifyArr (y :: rest)

/-- Serialises the fields of a JSON object, comma separated. -/
def stringifyObj : List (String × JsonVal) → String
  | [] => ""
  | [(k, v)] => "\"" ++ escapeString k ++ "\":" ++ stringifyJson v
  | (k, v) :: y :: rest =>
      "\"" ++ escapeString k ++ "\":" ++ stringifyJson v ++ "," ++ stringifyObj (y :: rest)

end

/-- Looks up the first field with the given name in a JSON object. -/
def lookupField (fields : List (String × JsonVal)) (name : String) : Option JsonVal :=
  match fields with
  | [] => none
  | (k, v) :: rest => if k = name then some v else lookupField rest name

/-- z.string(): accepts exactly JSON strings. -/
def asString : JsonVal → Option String
  | .jstr s => some s
  | _ => none

/-- z.number() restricted to the integer JSON numbers this model represents. -/
def asInt : JsonVal → Option Int
  | .jnum n => some n
  | _ => none

/-- z.boolean(): accepts exactly JSON booleans. -/
def asBool : JsonVal → Option Bool
  | .jbool b => some b
  | _ => none

/-- z.record(z.unknown()): accepts any JSON object, keeping its fields. -/
def asRecord : JsonVal → Option (List (String × JsonVal))
  | .jobj fs => some fs
  | _ => none

/-- z.array(z.string()): accepts arrays whose elements are all strings. -/
def asStringList : JsonVal → Option (List String)
  | .jarr xs => xs.mapM asString
  | _ => none

/-- An optional zod field: an absent key parses to none, a present key
must satisfy the element parser (null does not satisfy .optional()). -/
def optField {α : Type} (fields : List (String × JsonVal)) (name : String)
    (f : JsonVal → Option α) : Option (Option α) :=
  match lookupField fields name with
  | none => some none
  | some v =>
    match f v with
    | none => none
    | some a => some (some a)

/-- OutputFormatSchema = z.enum(["svg", "png", "ppt"]). -/
inductive OutputFormat where
  | svg | png | ppt
deriving Repr, DecidableEq

/-- ColourModeSchema = z.enum(["light", "dark", "both"]). -/
inductive ColourMode where
  | light | dark | both
deriving Repr, DecidableEq

/-- OrientationSchema = z.enum(["auto", "horizontal", "vertical", "square"]). -/
inductive Orientation where
  | auto | horizontal | vertical | square
deriving Repr, DecidableEq

/-- TextExtractionModeSchema = z.enum(["auto", "rewrite", "preserve"]). -/
inductive TextExtractionMode where
  | auto | rewrite | preserve
deriving Repr, DecidableEq

/-- SortStrategySchema = z.enum(["relevance", "random"]). -/
inductive SortStrategy where
  | relevance | random
deriving Repr, DecidableEq

/-- VisualStatusSchema = z.enum(["pending", "processing", "completed", "failed"]). -/
inductive VisualStatus where
  | pending | processing | completed | failed
deriving Repr, DecidableEq

/-- Parses the output format enum from JSON. -/
def parseOutputFormat : JsonVal → Option OutputFormat
  | .jstr "svg" => some .svg
  | .jstr "png" => some .png
  | .jstr "ppt" => some .ppt
  | _ => none

/-- Parses the colour mode enum from JSON. -/
def parseColourMode : JsonVal → Option ColourMode
  | .jstr "light" => some .light
  | .jstr "dark" => some .dark
  | .jstr "both" => some .both
  | _ => none

/-- Parses the orientation enum from JSON. -/
def parseOrientation : JsonVal → Option Orientation
  | .jstr "auto" => some .auto
  | .jstr "horizontal" => some .horizontal
  | .jstr "vertical" => some .vertical
  | .jstr "square" => some .square
  | _ => none

/-- Parses the text extraction mode enum from JSON. -/
def parseTextExtractionMode : JsonVal → Option TextExtractionMode
  | .jstr "auto" => some .auto
  | .jstr "rewrite" => some .rewrite
  | .jstr "preserve" => some .preserve
  | _ => none

/-- Parses the sort strategy enum from JSON. -/
def parseSortStrategy : JsonVal → Option SortStrategy
  | .jstr "relevance" => some .relevance
  | .jstr "random" => some .random
  | _ => none

/-- Parses the visual status enum from JSON. -/
def parseVisualStatus : JsonVal → Option VisualStatus
  | .jstr "pending" => some .pending
  | .jstr "processing" => some .processing
  | .jstr "completed" => some .completed
  | .jstr "failed" => some .failed
  | _ => none

/-- GenerateVisualRequestSchema field set (src/types.ts). All selector
fields are independent optionals: the schema has no cross-field refinement,
although the field documentation promises mutual exclusivity. -/
structure GenerateVisualRequest where
  format : OutputFormat
  content : String
  context : Option String := none
  language : Option String := none
  style_id : Option String := none
  visual_id : Option String := none
  visual_ids : Option (List String) := none
  visual_query : Option String := none
  visual_queries : Option (List String) := none
  number_of_visuals : Option Int := none
  transparent_background : Option Bool := none
  color_mode : Option ColourMode := none
  width : Option Int := none
  height : Option Int := none
  orientation : Option Orientation := none
  text_extraction_mode : Option TextExtractionMode := none
  sort_strategy : Option SortStrategy := none
deriving Repr, DecidableEq

/-- Parses a JSON number as a bounded integer, the model of
z.number().int().min(lo).max(hi). -/
def asBoundedInt (lo hi : Int) (v : JsonVal) : Option Int :=
  match asInt v with
  | none => none
  | some n => if lo ≤ n ∧ n ≤ hi then some n else none

/-- Validity of every optional field of GenerateVisualRequestSchema:
each field is checked independently; the schema has no cross-field
refinement, so no combination of present fields is rejected here. -/
def generateRequestOptsOk (fs : List (String × JsonVal)) : Bool :=
  (optField fs "context" asString).isSome
    && (optField fs "language" asString).isSome
    && (optField fs "style_id" asString).isSome
    && (optField fs "visual_id" asString).isSome
    && (optField fs "visual_ids" asStringList).isSome
    && (optField fs "visual_query" asString).isSome
    && (optField fs "visual_queries" asStringList).isSome
    && (optField fs "number_of_visuals" (asBoundedInt 1 4)).isSome
    && (optField fs "transparent_background" asBool).isSome
    && (optField fs "color_mode" parseColourMode).isSome
    && (optField fs "width" (asBoundedInt 100 10000)).isSome
    && (optField fs "height" (asBoundedInt 100 10000)).isSome
    && (optField fs "orientation" parseOrientation).isSome
    && (optField fs "text_extraction_mode" parseTextExtractionMode).isSome
    && (optField fs "sort_strategy" parseSortStrategy).isSome

/-- GenerateVisualRequestSchema.safeParse: format must be a valid enum
value, content a nonempty string, and every optional field must be valid
when present. Success produces the parsed field values. -/
def parseGenerateVisualRequest (j : JsonVal) : Option GenerateVisualRequest :=
  match asRecord j with
  | none => none
  | some fs =>
    match (lookupField fs "format").bind parseOutputFormat,
        (lookupField fs "content").bind asString with
    | some format, some content =>
      if 1 ≤ content.length && generateRequestOptsOk fs then
        some {
          format := format, content := content,
          context := (optField fs "context" asString).getD none,
          language := (optField fs "language" asString).getD none,
          style_id := (optField fs "style_id" asString).getD none,
          visual_id := (optField fs "visual_id" asString).getD none,
          visual_ids := (optField fs "visual_ids" asStringList).getD none,
          visual_query := (optField fs "visual_query" asString).getD none,
          visual_queries := (optField fs "visual_queries" asStringList).getD none,
          number_of_visuals := (optField fs "number_of_visuals" (asBoundedInt 1 4)).getD none,
          transparent_background := (optField fs "transparent_background" asBool).getD none,
          color_mode := (optField fs "color_mode" parseColourMode).getD none,
          width := (optField fs "width" (asBoundedInt 100 10000)).getD none,
          height := (optField fs "height" (asBoundedInt 100 10000)).getD none,
          orientation := (optField fs "orientation" parseOrientation).getD none,
          text_extraction_mode :=
            (optField fs "text_extraction_mode" parseTextExtractionMode).getD none,
          sort_strategy := (optField fs "sort_strategy" parseSortStrategy).getD none }
      else none
    | _, _ => none

/-- GenerateVisualResponseSchema output: id, status and optional warning. -/
structure GenerateVisualResponse where
  id : String
  status : VisualStatus
  warning : Option String := none
deriving Repr, DecidableEq

/-- GenerateVisualResponseSchema.safeParse. -/
def parseGenerateVisualResponse (j : JsonVal) : Option GenerateVisualResponse := do
  let fs ← asRecord j
  let id ← (lookupField fs "id").bind asString
  let status ← (lookupField fs "status").bind parseVisualStatus
  let warning ← optField fs "warning" asString
  some { id := id, status := status, warning := warning }

/-- GeneratedFileSchema output: download url, owning visual id, and the
optional query/style/dimension/colour-mode metadata. -/
structure GeneratedFile where
  url : String
  visual_id : String
  visual_query : Option String := none
  style_id : Option String := none
  width : Option Int := none
  height : Option Int := none
  color_mode : Option ColourMode := none
deriving Repr, DecidableEq

/-- GeneratedFileSchema.safeParse. The urlOk argument abstracts the URL
format check performed by z.string().url(); color_mode here admits only
light and dark, per the schema. -/
def parseGeneratedFile (urlOk : String → Bool) (j : JsonVal) : Option GeneratedFile := do
  let fs ← asRecord j
  let url ← (lookupField fs "url").bind asString
  if urlOk url then
    let visual_id ← (lookupField fs "visual_id").bind asString
    let visual_query ← optField fs "visual_query" asString
    let style_id ← optField fs "style_id" asString
    let width ← optField fs "width" asInt
    let height ← optField fs "height" asInt
    let color_mode ← optField fs "color_mode" fun v =>
      match parseColourMode v with
      | some .light => some ColourMode.light
      | some .dark => some ColourMode.dark
      | _ => none
    some { url := url, visual_id := visual_id, visual_query := visual_query,
           style_id := style_id, width := width, height := height,
           color_mode := color_mode }
  else none

/-- VisualStatusResponseSchema output: a point-in-time status snapshot. -/
structure VisualStatusResponse where
  id : String
  status : VisualStatus
  request : Option (List (String × JsonVal)) := none
  generated_files : Option (List GeneratedFile) := none
  error : Option String := none
deriving Repr

/-- VisualStatusResponseSchema.safeParse. -/
def parseVisualStatusResponse (urlOk : String → Bool) (j : JsonVal) :
    Option VisualStatusResponse := do
  let fs ← asRecord j
  let id ← (lookupField fs "id").bind asString
  let status ← (lookupField fs "status").bind parseVisualStatus
  let request ← optField fs "request" asRecord
  let generated_files ← optField fs "generated_files" fun v =>
    match v with
    | .jarr xs => xs.mapM (parseGeneratedFile urlOk)
    | _ => none
  let error ← optField fs "error" asString
  some { id := id, status := status, request := request,
         generated_files := generated_files, error := error }

/-- An HTTP response as seen through fetch: status line plus the body,
both as the text that response.text() yields and as the JSON value that
response.json() yields. -/
structure HttpResponse where
  status : Nat
  statusText : String
  textBody : String
  jsonBody : JsonVal
deriving Repr

/-- Outcome of one fetch call: a response, or a network-level failure
(the promise rejecting). -/
inductive FetchOutcome where
  | resp (r : HttpResponse)
  | netFail (msg : String)
deriving Repr

/-- response.ok per the fetch specification: status in the 2xx range. -/
def respOk (r : HttpResponse) : Bool :=
  200 ≤ r.status && r.status < 300

/-- The NapkinApiError shape: message, optional HTTP status code and
optional captured response body. -/
structure NapkinApiError where
  message : String
  statusCode : Option Nat := none
  responseBody : Option String := none
deriving Repr, DecidableEq

/-- An error escaping a client operation: a thrown NapkinApiError, or a
fetch rejection propagated as-is. -/
inductive ClientError where
  | api (e : NapkinApiError)
  | network (msg : String)
deriving Repr, DecidableEq

/-- NapkinClient.request on a single fetch outcome: a non-2xx response
throws NapkinApiError with the status code and the text body captured; a
2xx response yields the JSON body; a fetch rejection propagates. -/
def requestOnce (o : FetchOutcome) : Except ClientError JsonVal :=
  match o with
  | .netFail m => .error (.network m)
  | .resp r =>
    if respOk r then .ok r.jsonBody
    else .error (.api {
      message := "API request failed: " ++ toString r.status ++ " " ++ r.statusText,
      statusCode := some r.status,
      responseBody := some r.textBody })

/-- NapkinClient.generate over a trace of fetch outcomes. One fetch is
issued unconditionally (the request value is serialised into the call
body and is never validated first); a 2xx JSON body is then checked
against GenerateVisualResponseSchema, and a body that does not match
throws NapkinApiError with no status code, carrying the serialised raw
body. Returns the result together with the unconsumed trace, so that the
number of network calls issued is observable. -/
def generate (req : GenerateVisualRequest) (trace : List FetchOutcome) :
    Except ClientError GenerateVisualResponse × List FetchOutcome :=
  match trace with
  | [] => (.error (.network "fetch failed: trace exhausted"), [])
  | o :: rest =>
    match requestOnce o with
    | .error e => (.error e, rest)
    | .ok body =>
      match parseGenerateVisualResponse body with
      | none =>
        (.error (.api {
          message := "Invalid API response",
          statusCode := none,
          responseBody := some (stringifyJson body) }), rest)
      | some parsed => (.ok parsed, rest)

/-- NapkinClient.getStatus over a trace of fetch outcomes, with the same
failure contract as generate but validating against
VisualStatusResponseSchema. -/
def getStatus (urlOk : String → Bool) (requestId : String) (trace : List FetchOutcome) :
    Except ClientError VisualStatusResponse × List FetchOutcome :=
  match trace with
  | [] => (.error (.network "fetch failed: trace exhausted"), [])
  | o :: rest =>
    match requestOnce o with
    | .error e => (.error e, rest)
    | .ok body =>
      match parseVisualStatusResponse urlOk body with
      | none =>
        (.error (.api {
          message := "Invalid API response",
          statusCode := none,
          responseBody := some (stringifyJson body) }), rest)
      | some parsed => (.ok parsed, rest)

/-- Terminal outcome of the generateAndWait polling loop. A completed
snapshot is returned; a failed snapshot or an exceeded deadline throws a
NapkinApiError whose responseBody is the serialisation of the snapshot,
carried here as the snapshot itself. -/
inductive GAWResult where
  | completed (s : VisualStatusResponse)
  | failedErr (message : String) (snapshot : VisualStatusResponse)
  | timeoutErr (message : String) (snapshot : VisualStatusResponse)

/-- Message of the error thrown for a failed snapshot. -/
def failedMessage (s : VisualStatusResponse) : String :=
  "Visual generation failed: " ++ s.error.getD "Unknown error"

/-- Message of the error thrown when the deadline is exceeded. -/
def timeoutMessage (maxWaitTime : Nat) : String :=
  "Visual generation timed out after " ++ toString maxWaitTime ++ "ms"

/-- The generateAndWait polling loop, modelled over the sequence of
parsed status snapshots the repeated getStatus calls return, paired with
the elapsed milliseconds Date.now() - startTime reads at each iteration.
Each iteration delivers its snapshot to onProgress first, then checks
completed, then failed, then the strict deadline test elapsed >
maxWaitTime. Returns the loop outcome (none when the trace ends before
one is reached), the list of snapshots delivered to onProgress, and the
number of getStatus calls consumed. -/
def pollLoop (maxWaitTime : Nat) :
    List (VisualStatusResponse × Nat) →
      Option GAWResult × List VisualStatusResponse × Nat
  | [] => (none, [], 0)
  | (s, elapsed) :: rest =>
    if s.status = .completed then
      (some (.completed s), [s], 1)
    else if s.status = .failed then
      (some (.failedErr (failedMessage s) s), [s], 1)
    else if maxWaitTime < elapsed then
      (some (.timeoutErr (timeoutMessage maxWaitTime) s), [s], 1)
    else
      let next := pollLoop maxWaitTime rest
      (next.1, s :: next.2.1, next.2.2 + 1)

/-- NapkinClient.generateAndWait: submit via generate, then run the
polling loop on the snapshots the status endpoint returns. The initial
submission response contributes only its id; its status is never
inspected and it is not delivered to onProgress. -/
def generateAndWait (maxWaitTime : Nat) (req : GenerateVisualRequest)
    (trace : List FetchOutcome) (polls : List (VisualStatusResponse × Nat)) :
    Except ClientError (Option GAWResult × List VisualStatusResponse × Nat) :=
  match (generate req trace).1 with
  | .error e => .error e
  | .ok _ => .ok (pollLoop maxWaitTime polls)

/-- Modelled from the spec: the retry budget of the transport client,
"a fixed small number of attempts (e.g., 3 additional attempts beyond
the first)". The retry-enabled request wrapper itself is not among the
captured sources; only its tests (client.test.ts, which pin four calls
in total before giving up) and this spec sentence describe it. -/
def maxRetryAttempts : Nat := 3

/-- Modelled from the spec: the base backoff delay in milliseconds;
"backoff delay doubles each attempt starting from a base delay". -/
def retryBaseDelayMs : Nat := 1000

/-- Modelled from the spec: a status is transient, hence retried, exactly
when it is HTTP 429 or any 5xx. -/
def isRetryableStatus (status : Nat) : Bool :=
  status == 429 || (500 ≤ status && status < 600)

/-- Modelled from the spec: the retry-enabled NapkinClient.request, which
is absent from the captured sources. On 429 or 5xx it sleeps the doubling
backoff delay and retries, up to maxRetryAttempts additional attempts
beyond the first; every other non-2xx fails immediately with no further
network call; exhausting the budget surfaces the last error with its
status code. Returns the outcome, the number of fetch calls issued, and
the backoff delays slept. -/
def requestWithRetry : List FetchOutcome → Nat → Except ClientError JsonVal × Nat × List Nat
  | [], _ => (.error (.network "fetch failed: trace exhausted"), 0, [])
  | o :: rest, attempt =>
    match o with
    | .netFail m => (.error (.network m), 1, [])
    | .resp r =>
      if respOk r then (.ok r.jsonBody, 1, [])
      else if isRetryableStatus r.status && attempt < maxRetryAttempts then
        let (res, calls, delays) := requestWithRetry rest (attempt + 1)
        (res, calls + 1, retryBaseDelayMs * 2 ^ attempt :: delays)
      else
        (.error (.api {
          message := "API request failed: " ++ toString r.status ++ " " ++ r.statusText,
          statusCode := some r.status,
          responseBody := some r.textBody }), 1, [])

/-- Modelled from the spec: generate going through the retry-enabled
transport, followed by the same GenerateVisualResponseSchema validation
as the captured generate. -/
def generateWithRetry (trace : List FetchOutcome) :
    Except ClientError GenerateVisualResponse × Nat × List Nat :=
  match requestWithRetry trace 0 with
  | (.error e, calls, delays) => (.error e, calls, delays)
  | (.ok body, calls, delays) =>
    match parseGenerateVisualResponse body with
    | none =>
      (.error (.api {
        message := "Invalid API response",
        statusCode := none,
        responseBody := some (stringifyJson body) }), calls, delays)
    | some parsed => (.ok parsed, calls, delays)

/-- Result of verifyApiKey: a value, never a thrown error. -/
structure VerifyResult where
  valid : Bool
  error : Option String := none
deriving Repr, DecidableEq

/-- Error message attached to an invalid-credentials verification. -/
def invalidKeyMessage : String :=
  "Invalid or expired API key. Please check your NAPKIN_API_KEY."

/-- Modelled from the spec: NapkinClient.verifyApiKey, absent from the
captured sources (its tests are in client.test.ts). A lightweight probe
is classified: 2xx or 404 means the key is valid, 401 or 403 means
invalid credentials, a network-level failure is reported as a connection
failure, and any other status as a generic verification failure; no
outcome throws. -/
def verifyApiKey (o : FetchOutcome) : VerifyResult :=
  match o with
  | .netFail m => { valid := false, error := some ("Connection failed: " ++ m) }
  | .resp r =>
    if respOk r || r.status == 404 then
      { valid := true, error := none }
    else if r.status == 401 || r.status == 403 then
      { valid := false, error := some invalidKeyMessage }
    else
      { valid := false,
        error := some ("API key verification failed with status " ++ toString r.status) }

/-- A generated file record as the server-side status reports it
(src/server.ts output schema: id, format, optional visual_id and
color_mode). -/
structure ServerFile where
  id : String
  format : String
  visual_id : Option String := none
  color_mode : Option String := none
deriving Repr, DecidableEq

/-- The terminal status the server-side generateAndWait call hands to the
generate_and_save handler: request id, status text, optional file list
and warning. -/
structure ServerStatus where
  id : String
  status : String
  files : Option (List ServerFile) := none
  warning : Option String := none
deriving Repr, DecidableEq

/-- Result of a storage provider store call (src/storage/types.ts):
location, optional public URL and provider metadata. -/
structure StorageResult where
  location : String
  publicUrl : Option String := none
  metadata : List (String × String) := []
deriving Repr, DecidableEq

/-- What the generate_and_save handler passes to store for one file. -/
structure StoreRequest where
  content : List Nat
  filename : String
  mimeType : String
  requestId : String
  fileId : String
  visualId : Option String := none
deriving Repr, DecidableEq

/-- One entry of the generate_and_save output. -/
structure SavedFile where
  file_id : String
  storage_location : String
  public_url : Option String := none
deriving Repr, DecidableEq

/-- The structured output of generate_and_save. -/
structure SaveOutput where
  request_id : String
  files : List SavedFile
deriving Repr, DecidableEq

/-- A network interaction the generate_and_save handler performs. -/
inductive NetOp where
  | generateAndWaitCall
  | downloadCall (requestId : String) (fileId : String)
deriving Repr, DecidableEq

/-- The handler's MIME type table, defaulting to application/octet-stream. -/
def mimeTypeFor (format : String) : String :=
  if format = "svg" then "image/svg+xml"
  else if format = "png" then "image/png"
  else if format = "ppt" then "application/vnd.ms-powerpoint"
  else "application/octet-stream"

/-- The filename generate_and_save stores a file under: the caller
filename or napkin-{id}, an index suffix when several files exist, a
colour-mode suffix when present, and the format as extension. -/
def savedFilename (inputFilename : Option String) (statusId : String)
    (total : Nat) (index : Nat) (file : ServerFile) : String :=
  let baseFilename := inputFilename.getD ("napkin-" ++ statusId)
  let suffix := if 1 < total then "-" ++ toString (index + 1) else ""
  let colourSuffix :=
    match file.color_mode with
    | some c => "-" ++ c
    | none => ""
  baseFilename ++ suffix ++ colourSuffix ++ "." ++ file.format

/-- Downloads and stores one generated file, as the Promise.all body of
the handler does. -/
def saveOneFile (store : StoreRequest → Except String StorageResult)
    (download : String → String → Except String (List Nat))
    (statusId : String) (inputFilename : Option String)
    (total index : Nat) (file : ServerFile) : Except String SavedFile :=
  match download statusId file.id with
  | .error e => .error e
  | .ok buffer =>
    match store {
        content := buffer,
        filename := savedFilename inputFilename statusId total index file,
        mimeType := mimeTypeFor file.format,
        requestId := statusId,
        fileId := file.id,
        visualId := file.visual_id } with
    | .error e => .error e
    | .ok result =>
      .ok { file_id := file.id, storage_location := result.location,
            public_url := result.publicUrl }

/-- Saves every generated file in order; any failing download or store
fails the whole batch, as Promise.all rejects the combined promise. -/
def saveFilesFrom (store : StoreRequest → Except String StorageResult)
    (download : String → String → Except String (List Nat))
    (statusId : String) (inputFilename : Option String) (total : Nat) :
    Nat → List ServerFile → Except String (List SavedFile)
  | _, [] => .ok []
  | index, file :: rest =>
    match saveOneFile store download statusId inputFilename total index file with
    | .error e => .error e
    | .ok one =>
      match saveFilesFrom store download statusId inputFilename total (index + 1) rest with
      | .error e => .error e
      | .ok others => .ok (one :: others)

/-- The generate_and_save tool handler (src/server.ts). Without a
configured storage provider it fails at once, before any network call;
otherwise it runs generateAndWait, treats an absent or empty file list as
the fatal "No files generated", and downloads and stores every file,
failing entirely when any single step fails. Returns the outcome together
with the network operations performed, in order. -/
def generateAndSave
    (storageProvider : Option (StoreRequest → Except String StorageResult))
    (gaw : Except String ServerStatus)
    (download : String → String → Except String (List Nat))
    (inputFilename : Option String) :
    Except String SaveOutput × List NetOp :=
  match storageProvider with
  | none =>
    (.error "Storage not configured. Set storage configuration to use this tool.", [])
  | some store =>
    match gaw with
    | .error e => (.error e, [.generateAndWaitCall])
    | .ok status =>
      match status.files with
      | none => (.error "No files generated", [.generateAndWaitCall])
      | some files =>
        if files.isEmpty then
          (.error "No files generated", [.generateAndWaitCall])
        else
          let ops := NetOp.generateAndWaitCall ::
            files.map fun f => NetOp.downloadCall status.id f.id
          match saveFilesFrom store download status.id inputFilename files.length 0 files with
          | .error e => (.error e, ops)
          | .ok saved => (.ok { request_id := status.id, files := saved }, ops)

/-- A filesystem: the set of directories that exist and a map from file
paths to byte contents. -/
structure FileSystem where
  dirs : List String := []
  files : List (String × List Nat) := []
deriving Repr

/-- Looks a file path up in a path-to-bytes association list. -/
def findBytes : List (String × List Nat) → String → Option (List Nat)
  | [], _ => none
  | (k, v) :: rest, p => if k = p then some v else findBytes rest p

/-- Reads the bytes stored at a path. -/
def FileSystem.read (fs : FileSystem) (path : String) : Option (List Nat) :=
  findBytes fs.files path

/-- mkdir with recursive true: creates the directory when absent and
succeeds unchanged when it already exists. -/
def mkdirRecursive (fs : FileSystem) (dir : String) : FileSystem :=
  if dir ∈ fs.dirs then fs else { fs with dirs := dir :: fs.dirs }

/-- writeFile: stores the bytes at the path, replacing earlier content. -/
def writeFileFS (fs : FileSystem) (path : String) (content : List Nat) : FileSystem :=
  { fs with files := (path, content) :: fs.files.filter fun kv => kv.1 ≠ path }

/-- File content handed to a storage provider: a byte buffer or a
base64-encoded string. -/
inductive StoreContent where
  | buffer (bytes : List Nat)
  | base64 (text : String)
deriving Repr, DecidableEq

/-- StoreFileInput (src/storage/types.ts): content, target filename and
optional MIME type. -/
structure StoreFileInput where
  content : StoreContent
  filename : String
  mimeType : Option String := none
deriving Repr, DecidableEq

/-- Value of one base64 alphabet character, none for characters outside
the alphabet (Buffer.from ignores those, including padding). -/
def base64DigitValue (c : Char) : Option Nat :=
  if 65 ≤ c.toNat ∧ c.toNat ≤ 90 then some (c.toNat - 65)
  else if 97 ≤ c.toNat ∧ c.toNat ≤ 122 then some (c.toNat - 97 + 26)
  else if 48 ≤ c.toNat ∧ c.toNat ≤ 57 then some (c.toNat - 48 + 52)
  else if c = Char.ofNat 43 then some 62
  else if c = Char.ofNat 47 then some 63
  else none

/-- Reassembles bytes from a list of 6-bit base64 digit values. -/
def decodeBase64Groups : List Nat → List Nat
  | a :: b :: c :: d :: rest =>
    (a * 4 + b / 16) :: ((b % 16) * 16 + c / 4) :: ((c % 4) * 64 + d) ::
      decodeBase64Groups rest
  | [a, b, c] => [a * 4 + b / 16, (b % 16) * 16 + c / 4]
  | [a, b] => [a * 4 + b / 16]
  | _ => []

/-- Buffer.from(text, "base64"). -/
def bufferFromBase64 (s : String) : List Nat :=
  decodeBase64Groups (s.toList.filterMap base64DigitValue)

/-- The bytes LocalStorageProvider.store writes: the buffer itself, or
the base64 decoding of string content. -/
def storeContentBytes : StoreContent → List Nat
  | .buffer b => b
  | .base64 s => bufferFromBase64 s

/-- path.join(directory, filename) for the already-normalised directory
and filename values this provider receives. -/
def joinPath (dir filename : String) : String :=
  dir ++ "/" ++ filename

/-- LocalStorageProvider.store (src/storage/local.ts and the later copy
in src/storage/index.ts): ensures the directory exists, treating an
already existing directory as success, writes the bytes to
directory/filename, and returns that path as the location with the
directory, filename and byte count as metadata. -/
def localStore (directory : String) (fs : FileSystem) (input : StoreFileInput) :
    FileSystem × StorageResult :=
  let fs1 := mkdirRecursive fs directory
  let filePath := joinPath directory input.filename
  let content := storeContentBytes input.content
  let fs2 := writeFileFS fs1 filePath content
  (fs2,
   { location := filePath,
     publicUrl := none,
     metadata := [("directory", directory), ("filename", input.filename),
                  ("size", toString content.length)] })

/-- Terminal status per the glossary: completed or failed ends the loop. -/
def isTerminalStatus (s : VisualStatus) : Bool :=
  s == .completed || s == .failed

/-- Sample 503 response used in the retry scenarios. -/
def resp503 : HttpResponse :=
  { status := 503, statusText := "Service Unavailable",
    textBody := "Service down", jsonBody := .null }

/-- Sample 400 response used in the no-retry scenario. -/
def resp400 : HttpResponse :=
  { status := 400, statusText := "Bad Request",
    textBody := "Invalid input", jsonBody := .null }

/-- Sample 401 response used for verifyApiKey. -/
def resp401 : HttpResponse :=
  { status := 401, statusText := "Unauthorized", textBody := "", jsonBody := .null }

/-- Sample 200 submission response with a schema-conforming body. -/
def respOk200 : HttpResponse :=
  { status := 200, statusText := "OK", textBody := "",
    jsonBody := .jobj [("id", .jstr "req-123"), ("status", .jstr "pending")] }

/-- Sample 200 response whose body does not match any response schema. -/
def respBadBody : HttpResponse :=
  { status := 200, statusText := "OK", textBody := "",
    jsonBody := .jobj [("unexpected", .jstr "shape")] }

/-- The parse of respOk200's body. -/
def pendingResponse : GenerateVisualResponse :=
  { id := "req-123", status := .pending }

/-- Sample 200 submission response whose body already reports the
completed status. -/
def respOk200Completed : HttpResponse :=
  { status := 200, statusText := "OK", textBody := "",
    jsonBody := .jobj [("id", .jstr "req-123"), ("status", .jstr "completed")] }

/-- The parse of respOk200Completed's body. -/
def completedResponse : GenerateVisualResponse :=
  { id := "req-123", status := .completed }

/-- A minimal valid request, as in the repository tests. -/
def sampleRequest : GenerateVisualRequest :=
  { format := .svg, content := "Test" }

/-- A request carrying both a visual_id and a visual_query, which the
documentation of GenerateVisualRequestSchema declares mutually
exclusive. -/
def conflictingRequest : GenerateVisualRequest :=
  { format := .svg, content := "Test content",
    visual_id := some "vis-1", visual_query := some "mindmap" }

/-- JSON encoding of conflictingRequest. -/
def conflictingRequestJson : JsonVal :=
  .jobj [("format", .jstr "svg"), ("content", .jstr "Test content"),
         ("visual_id", .jstr "vis-1"), ("visual_query", .jstr "mindmap")]

/-- A request whose visual_ids length differs from number_of_visuals. -/
def mismatchedRequest : GenerateVisualRequest :=
  { format := .svg, content := "Test",
    visual_ids := some ["a", "b"], number_of_visuals := some 1 }

/-- JSON encoding of mismatchedRequest. -/
def mismatchedRequestJson : JsonVal :=
  .jobj [("format", .jstr "svg"), ("content", .jstr "Test"),
         ("visual_ids", .jarr [.jstr "a", .jstr "b"]),
         ("number_of_visuals", .jnum 1)]

/-- Sample processing snapshot. -/
def processingSnapshot : VisualStatusResponse :=
  { id := "req-123", status := .processing }

/-- Sample completed snapshot with one generated file. -/
def completedSnapshot : VisualStatusResponse :=
  { id := "req-123", status := .completed,
    generated_files := some [{ url := "https://api.napkin.ai/files/file-1.svg",
                               visual_id := "vis-1" }] }

/-- Sample failed snapshot. -/
def failedSnapshot : VisualStatusResponse :=
  { id := "req-123", status := .failed, error := some "Invalid content" }

/-- Sample storage provider for the generate_and_save scenarios. -/
def sampleStore (req : StoreRequest) : Except String StorageResult :=
  .ok { location := "/tmp/out/" ++ req.filename, publicUrl := none }

/-- Sample download function for the generate_and_save scenarios. -/
def sampleDownload (requestId fileId : String) : Except String (List Nat) :=
  .ok [137, 80, 78, 71]

/-- Sample terminal server status with one file. -/
def sampleServerStatus : ServerStatus :=
  { id := "req-123", status := "completed",
    files := some [{ id := "file-1", format := "svg" }] }

theorem isTerminalStatus_eq_false {s : VisualStatus} :
    isTerminalStatus s = false ↔ s ≠ .completed ∧ s ≠ .failed := by
  cases s <;> simp [isTerminalStatus]

theorem isTerminalStatus_eq_true {s : VisualStatus} :
    isTerminalStatus s = true ↔ s = .completed ∨ s = .failed := by
  cases s <;> simp [isTerminalStatus]

theorem pollLoop_delivered_take (maxWaitTime : Nat) :
    ∀ polls : List (VisualStatusResponse × Nat),
      (pollLoop maxWaitTime polls).2.1 =
        (polls.map Prod.fst).take (pollLoop maxWaitTime polls).2.2 ∧
      (pollLoop maxWaitTime polls).2.2 ≤ polls.length := by
  intro polls
  induction polls with
  | nil => simp [pollLoop]
  | cons p rest ih =>
    obtain ⟨s, t⟩ := p
    by_cases h1 : s.status = .completed
    · simp [pollLoop, h1]
    · by_cases h2 : s.status = .failed
      · simp [pollLoop, h1, h2]
      · by_cases h3 : maxWaitTime < t
        · simp [pollLoop, h1, h2, h3]
        · refine ⟨?_, ?_⟩
          · simp only [pollLoop, h1, h2, h3, if_neg, ite_false, List.map_cons,
              List.take_succ_cons]
            rw [ih.1]
          · simp only [pollLoop, h1, h2, h3, if_neg, ite_false, List.length_cons]
            omega

theorem pollLoop_calls_pos (maxWaitTime : Nat) (p : VisualStatusResponse × Nat)
    (rest : List (VisualStatusResponse × Nat)) :
    1 ≤ (pollLoop maxWaitTime (p :: rest)).2.2 := by
  obtain ⟨s, t⟩ := p
  by_cases h1 : s.status = .completed
  · simp [pollLoop, h1]
  · by_cases h2 : s.status = .failed
    · simp [pollLoop, h1, h2]
    · by_cases h3 : maxWaitTime < t
      · simp [pollLoop, h1, h2, h3]
      · simp [pollLoop, h1, h2, h3]

theorem pollLoop_completed_head (maxWaitTime t : Nat) (s : VisualStatusResponse)
    (rest : List (VisualStatusResponse × Nat)) (h : s.status = .completed) :
    pollLoop maxWaitTime ((s, t) :: rest) = (some (.completed s), [s], 1) := by
  simp [pollLoop, h]

theorem pollLoop_result_cases (maxWaitTime : Nat) :
    ∀ (polls : List (VisualStatusResponse × Nat)) (r : GAWResult),
      (pollLoop maxWaitTime polls).1 = some r →
      (∃ s, r = .completed s ∧ s.status = .completed) ∨
      (∃ s, r = .failedErr (failedMessage s) s ∧ s.status = .failed) ∨
      (∃ s, r = .timeoutErr (timeoutMessage maxWaitTime) s ∧
        isTerminalStatus s.status = false) := by
  intro polls
  induction polls with
  | nil => intro r h; simp [pollLoop] at h
  | cons p rest ih =>
    obtain ⟨s, t⟩ := p
    intro r h
    by_cases h1 : s.status = .completed
    · rw [pollLoop_completed_head maxWaitTime t s rest h1] at h
      simp only [Option.some_inj] at h
      exact Or.inl ⟨s, h.symm, h1⟩
    · by_cases h2 : s.status = .failed
      · simp only [pollLoop] at h
        rw [if_neg h1, if_pos h2] at h
        simp only [Option.some_inj] at h
        exact Or.inr (Or.inl ⟨s, h.symm, h2⟩)
      · by_cases h3 : maxWaitTime < t
        · simp only [pollLoop] at h
          rw [if_neg h1, if_neg h2, if_pos h3] at h
          simp only [Option.some_inj] at h
          refine Or.inr (Or.inr ⟨s, h.symm, ?_⟩)
          exact isTerminalStatus_eq_false.mpr ⟨h1, h2⟩
        · simp only [pollLoop] at h
          rw [if_neg h1, if_neg h2, if_neg h3] at h
          exact ih r h

theorem pollLoop_some_of_decider (maxWaitTime : Nat) :
    ∀ polls : List (VisualStatusResponse × Nat),
      (∃ p ∈ polls, isTerminalStatus p.1.status = true ∨ maxWaitTime < p.2) →
      ∃ r, (pollLoop maxWaitTime polls).1 = some r := by
  intro polls
  induction polls with
  | nil => intro h; simp at h
  | cons p rest ih =>
    obtain ⟨s, t⟩ := p
    intro hdec
    by_cases h1 : s.status = .completed
    · exact ⟨.completed s, by simp [pollLoop, h1]⟩
    · by_cases h2 : s.status = .failed
      · exact ⟨.failedErr (failedMessage s) s, by simp [pollLoop, h1, h2]⟩
      · by_cases h3 : maxWaitTime < t
        · exact ⟨.timeoutErr (timeoutMessage maxWaitTime) s, by simp [pollLoop, h1, h2, h3]⟩
        · have htail : ∃ p ∈ rest, isTerminalStatus p.1.status = true ∨ maxWaitTime < p.2 := by
            rcases hdec with ⟨q, hq, hcase⟩
            rcases List.mem_cons.mp hq with hq0 | hqtail
            · exfalso
              subst hq0
              rcases hcase with hterm | hover
              · rcases isTerminalStatus_eq_true.mp hterm with hc | hf
                · exact h1 hc
                · exact h2 hf
              · exact h3 hover
            · exact ⟨q, hqtail, hcase⟩
          rcases ih htail with ⟨r, hr⟩
          exact ⟨r, by simp [pollLoop, h1, h2, h3, hr]⟩

theorem pollLoop_stops_at_terminal (maxWaitTime : Nat) :
    ∀ (polls : List (VisualStatusResponse × Nat)) (j : Nat) (hj : j < polls.length),
      isTerminalStatus ((polls.get ⟨j, hj⟩).1.status) = true →
      (pollLoop maxWaitTime polls).2.2 ≤ j + 1 := by
  intro polls
  induction polls with
  | nil => intro j hj; simp at hj
  | cons p rest ih =>
    obtain ⟨s, t⟩ := p
    intro j hj hterm
    by_cases h1 : s.status = .completed
    · simp only [pollLoop]
      rw [if_pos h1]
      show 1 ≤ j + 1
      omega
    · by_cases h2 : s.status = .failed
      · simp only [pollLoop]
        rw [if_neg h1, if_pos h2]
        show 1 ≤ j + 1
        omega
      · by_cases h3 : maxWaitTime < t
        · simp only [pollLoop]
          rw [if_neg h1, if_neg h2, if_pos h3]
          show 1 ≤ j + 1
          omega
        · cases j with
          | zero =>
            exfalso
            simp only [List.get] at hterm
            rcases isTerminalStatus_eq_true.mp hterm with hc | hf
            · exact h1 hc
            · exact h2 hf
          | succ j2 =>
            have hj2 : j2 < rest.length := by
              simp only [List.length_cons] at hj
              omega
            have hterm2 : isTerminalStatus ((rest.get ⟨j2, hj2⟩).1.status) = true := by
              simpa only [List.get] using hterm
            have := ih j2 hj2 hterm2
            simp only [pollLoop]
            rw [if_neg h1, if_neg h2, if_neg h3]
            show (pollLoop maxWaitTime rest).2.2 + 1 ≤ j2 + 1 + 1
            omega

theorem saveFilesFrom_ok_length
    (store : StoreRequest → Except String StorageResult)
    (download : String → String → Except String (List Nat))
    (statusId : String) (inputFilename : Option String) (total : Nat) :
    ∀ (index : Nat) (files : List ServerFile) (saved : List SavedFile),
      saveFilesFrom store download statusId inputFilename total index files = .ok saved →
      saved.length = files.length := by
  intro index files
  induction files generalizing index with
  | nil =>
    intro saved h
    simp only [saveFilesFrom] at h
    cases h
    rfl
  | cons f rest ih =>
    intro saved h
    simp only [saveFilesFrom] at h
    cases hone : saveOneFile store download statusId inputFilename total index f with
    | error e => rw [hone] at h; cases h
    | ok one =>
      rw [hone] at h
      cases hrest : saveFilesFrom store download statusId inputFilename total (index + 1) rest with
      | error e => rw [hrest] at h; cases h
      | ok others =>
        rw [hrest] at h
        cases h
        simp [ih (index + 1) others hrest]

/-- C9: the filesystem storage provider writes the byte buffer unchanged
to directory/filename, returns that path as the location, tolerates the
target directory already existing, and reading the returned location
back yields exactly the stored bytes. -/
theorem C9_local_store_roundtrip (directory filename : String) (b : List Nat)
    (fs : FileSystem) :
    ((localStore directory fs { content := .buffer b, filename := filename }).2.location
        = joinPath directory filename) ∧
    ((localStore directory fs { content := .buffer b, filename := filename }).1.read
        (joinPath directory filename) = some b) ∧
    ((localStore directory (mkdirRecursive fs directory)
        { content := .buffer b, filename := filename }).2 =
      (localStore directory fs { content := .buffer b, filename := filename }).2) ∧
    ((localStore directory (mkdirRecursive fs directory)
        { content := .buffer b, filename := filename }).1.read
        (joinPath directory filename) = some b) := by
  refine ⟨rfl, ?_, rfl, ?_⟩ <;>
    simp [localStore, writeFileFS, FileSystem.read, findBytes, storeContentBytes]

/-- C4: generate_and_save is all-or-nothing. With no storage provider it
fails at once with the storage-not-configured error and performs no
network operation; a terminal status with an absent or empty file list
fails with the no-files-generated error; and a successful result always
covers every generated file, never a strict subset. -/
theorem C4_generate_and_save_all_or_nothing
    (store : StoreRequest → Except String StorageResult)
    (gaw : Except String ServerStatus)
    (download : String → String → Except String (List Nat))
    (inputFilename : Option String) (status : ServerStatus) :
    (generateAndSave none gaw download inputFilename =
      (.error "Storage not configured. Set storage configuration to use this tool.", [])) ∧
    (status.files = none →
      generateAndSave (some store) (.ok status) download inputFilename =
        (.error "No files generated", [.generateAndWaitCall])) ∧
    (status.files = some [] →
      generateAndSave (some store) (.ok status) download inputFilename =
        (.error "No files generated", [.generateAndWaitCall])) ∧
    (∀ (out : SaveOutput) (files : List ServerFile), status.files = some files →
      (generateAndSave (some store) (.ok status) download inputFilename).1 = .ok out →
      out.files.length = files.length) := by
  refine ⟨rfl, ?_, ?_, ?_⟩
  · intro h
    simp [generateAndSave, h]
  · intro h
    simp [generateAndSave, h]
  · intro out files hfiles hok
    simp only [generateAndSave, hfiles] at hok
    by_cases hemp : files.isEmpty
    · simp [hemp] at hok
    · simp only [hemp, if_neg, Bool.false_eq_true, ite_false] at hok
      cases hsave : saveFilesFrom store download status.id inputFilename files.length 0 files with
      | error e => rw [hsave] at hok; cases hok
      | ok saved =>
        rw [hsave] at hok
        cases hok
        exact saveFilesFrom_ok_length store download status.id inputFilename
          files.length 0 files saved hsave

theorem C4_generate_and_save_witness :
    ((generateAndSave (some sampleStore) (.ok sampleServerStatus) sampleDownload none).1 =
        .ok { request_id := "req-123",
              files := [{ file_id := "file-1",
                          storage_location := "/tmp/out/napkin-req-123.svg" }] }) ∧
    ({ request_id := "req-123",
       files := [{ file_id := "file-1",
                   storage_location := "/tmp/out/napkin-req-123.svg" }] :
        SaveOutput }).files.length = 1 ∧
    (generateAndSave none (.ok sampleServerStatus) sampleDownload none =
      (.error "Storage not configured. Set storage configuration to use this tool.", [])) := by
  refine ⟨by rfl, ?_, ?_⟩
  · exact (C4_generate_and_save_all_or_nothing sampleStore (.ok sampleServerStatus)
      sampleDownload none sampleServerStatus).2.2.2
      { request_id := "req-123",
        files := [{ file_id := "file-1",
                    storage_location := "/tmp/out/napkin-req-123.svg" }] }
      [{ id := "file-1", format := "svg" }] rfl (by rfl)
  · exact (C4_generate_and_save_all_or_nothing sampleStore (.ok sampleServerStatus)
      sampleDownload none sampleServerStatus).1

/-- C6: verifyApiKey is a total function of the probe outcome, so it
never throws; it reports valid exactly for a 2xx or 404 probe response,
reports invalid credentials with a message carrying the phrase
"Invalid or expired API key" for 401 and 403, and reports a
"Connection failed" reason when the network call itself fails. -/
theorem C6_verify_api_key_classification (o : FetchOutcome) :
    (∀ r : HttpResponse, o = .resp r →
      ((verifyApiKey o).valid = true ↔ (respOk r || r.status == 404) = true)) ∧
    (∀ r : HttpResponse, o = .resp r → r.status = 401 ∨ r.status = 403 →
      verifyApiKey o = { valid := false, error := some invalidKeyMessage }) ∧
    (∃ suffix : String, invalidKeyMessage = "Invalid or expired API key" ++ suffix) ∧
    (∀ m : String, o = .netFail m →
      verifyApiKey o = { valid := false, error := some ("Connection failed: " ++ m) }) := by
  refine ⟨?_, ?_, ⟨". Please check your NAPKIN_API_KEY.", by decide⟩, ?_⟩
  · rintro r rfl
    simp only [verifyApiKey]
    by_cases h : (respOk r || r.status == 404) = true
    · simp [h]
    · simp only [h, if_neg, Bool.false_eq_true, ite_false]
      by_cases h2 : (r.status == 401 || r.status == 403) = true
      · simp [h, h2]
      · simp [h, h2]
  · rintro r rfl hst
    have hnot : (respOk r || r.status == 404) = false := by
      rcases hst with h | h <;> simp [respOk, h]
    have hyes : (r.status == 401 || r.status == 403) = true := by
      rcases hst with h | h <;> simp [h]
    simp [verifyApiKey, hnot, hyes]
  · rintro m rfl
    rfl

theorem C6_verify_api_key_witness :
    verifyApiKey (.resp resp401) = { valid := false, error := some invalidKeyMessage } :=
  (C6_verify_api_key_classification (.resp resp401)).2.1 resp401 rfl (Or.inl rfl)

/-- C7: for generate and getStatus, a 2xx response whose JSON body fails
the expected response schema raises a NapkinApiError with no status code
whose responseBody is the serialised raw body, while a body matching the
schema is returned as the parsed data. -/
theorem C7_malformed_body_validation (urlOk : String → Bool)
    (req : GenerateVisualRequest) (requestId : String)
    (r : HttpResponse) (rest : List FetchOutcome) (hok : respOk r = true) :
    (parseGenerateVisualResponse r.jsonBody = none →
      (generate req (.resp r :: rest)).1 =
        .error (.api { message := "Invalid API response", statusCode := none,
                       responseBody := some (stringifyJson r.jsonBody) })) ∧
    (∀ v, parseGenerateVisualResponse r.jsonBody = some v →
      (generate req (.resp r :: rest)).1 = .ok v) ∧
    (parseVisualStatusResponse urlOk r.jsonBody = none →
      (getStatus urlOk requestId (.resp r :: rest)).1 =
        .error (.api { message := "Invalid API response", statusCode := none,
                       responseBody := some (stringifyJson r.jsonBody) })) ∧
    (∀ v, parseVisualStatusResponse urlOk r.jsonBody = some v →
      (getStatus urlOk requestId (.resp r :: rest)).1 = .ok v) := by
  refine ⟨?_, ?_, ?_, ?_⟩
  · intro h
    simp [generate, requestOnce, hok, h]
  · intro v h
    simp [generate, requestOnce, hok, h]
  · intro h
    simp [getStatus, requestOnce, hok, h]
  · intro v h
    simp [getStatus, requestOnce, hok, h]

theorem C7_malformed_body_witness :
    ((generate sampleRequest [.resp respBadBody]).1 =
      .error (.api { message := "Invalid API response", statusCode := none,
                     responseBody := some (stringifyJson respBadBody.jsonBody) })) ∧
    ((generate sampleRequest [.resp respOk200]).1 = .ok pendingResponse) := by
  constructor
  · exact (C7_malformed_body_validation (fun _ => true) sampleRequest "req-123"
      respBadBody [] (by decide)).1 (by rfl)
  · exact (C7_malformed_body_validation (fun _ => true) sampleRequest "req-123"
      respOk200 [] (by decide)).2.1 pendingResponse (by rfl)

theorem pollLoop_timeout_at (maxWaitTime : Nat) :
    ∀ (polls : List (VisualStatusResponse × Nat)) (i : Nat) (hi : i < polls.length),
      (∀ (j : Nat) (hj : j < polls.length), j < i →
        isTerminalStatus ((polls.get ⟨j, hj⟩).1.status) = false ∧
          (polls.get ⟨j, hj⟩).2 ≤ maxWaitTime) →
      isTerminalStatus ((polls.get ⟨i, hi⟩).1.status) = false →
      maxWaitTime < (polls.get ⟨i, hi⟩).2 →
      pollLoop maxWaitTime polls =
        (some (.timeoutErr (timeoutMessage maxWaitTime) (polls.get ⟨i, hi⟩).1),
         (polls.map Prod.fst).take (i + 1), i + 1) := by
  intro polls
  induction polls with
  | nil => intro i hi; simp at hi
  | cons p rest ih =>
    obtain ⟨s, t⟩ := p
    intro i hi hbefore hterm hover
    cases i with
    | zero =>
      simp only [List.get] at hterm hover
      rcases isTerminalStatus_eq_false.mp hterm with ⟨h1, h2⟩
      simp only [pollLoop]
      rw [if_neg h1, if_neg h2, if_pos hover]
      simp [List.get]
    | succ i2 =>
      have hb0 := hbefore 0 (by simp) (by omega)
      simp only [List.get] at hb0
      rcases isTerminalStatus_eq_false.mp hb0.1 with ⟨h1, h2⟩
      have h3 : ¬ maxWaitTime < t := by
        have := hb0.2
        omega
      have hi2 : i2 < rest.length := by
        simp only [List.length_cons] at hi
        omega
      have hbefore2 : ∀ (j : Nat) (hj : j < rest.length), j < i2 →
          isTerminalStatus ((rest.get ⟨j, hj⟩).1.status) = false ∧
            (rest.get ⟨j, hj⟩).2 ≤ maxWaitTime := by
        intro j hj hji
        have := hbefore (j + 1) (by simp only [List.length_cons]; omega) (by omega)
        simpa only [List.get] using this
      have hterm2 : isTerminalStatus ((rest.get ⟨i2, hi2⟩).1.status) = false := by
        simpa only [List.get] using hterm
      have hover2 : maxWaitTime < (rest.get ⟨i2, hi2⟩).2 := by
        simpa only [List.get] using hover
      have hrec := ih i2 hi2 hbefore2 hterm2 hover2
      simp only [pollLoop]
      rw [if_neg h1, if_neg h2, if_neg h3]
      simp only [hrec, List.get, List.map_cons, List.take_succ_cons]

/-- C5 counterexample: the claim states the progress observer is never
invoked with a terminal snapshot, but in this concrete run the polling
loop delivers the completed snapshot to the observer. -/
theorem C5_progress_counterexample :
    (generateAndWait 300000 sampleRequest [.resp respOk200]
        [(processingSnapshot, 10), (completedSnapshot, 20)] =
      .ok (some (.completed completedSnapshot),
           [processingSnapshot, completedSnapshot], 2)) ∧
    completedSnapshot ∈ [processingSnapshot, completedSnapshot] ∧
    isTerminalStatus completedSnapshot.status = true := by
  refine ⟨by rfl, by simp, by decide⟩

/-- C5 amended: the progress observer receives exactly the polled status
snapshots, in order, one invocation per getStatus call and including the
terminal snapshot that ends the loop; the initial submission response is
never delivered because the delivered list is drawn from the polled
snapshots alone. -/
theorem C5_progress_per_poll (maxWaitTime : Nat) (req : GenerateVisualRequest)
    (trace : List FetchOutcome) (polls : List (VisualStatusResponse × Nat))
    (res : Option GAWResult) (delivered : List VisualStatusResponse) (calls : Nat)
    (h : generateAndWait maxWaitTime req trace polls = .ok (res, delivered, calls)) :
    delivered = (polls.map Prod.fst).take calls ∧ calls ≤ polls.length := by
  unfold generateAndWait at h
  cases hsub : (generate req trace).1 with
  | error e => rw [hsub] at h; cases h
  | ok resp =>
    rw [hsub] at h
    simp only [Except.ok.injEq] at h
    have h1 := congrArg (fun x => x.2.1) h
    have h2 := congrArg (fun x => x.2.2) h
    simp only at h1 h2
    rw [← h1, ← h2]
    exact pollLoop_delivered_take maxWaitTime polls

theorem C5_progress_per_poll_witness :
    ([processingSnapshot, completedSnapshot] =
      (([(processingSnapshot, 10), (completedSnapshot, 20)].map Prod.fst).take 2)) ∧
    2 ≤ ([(processingSnapshot, 10), (completedSnapshot, 20)] :
      List (VisualStatusResponse × Nat)).length :=
  C5_progress_per_poll 300000 sampleRequest [.resp respOk200]
    [(processingSnapshot, 10), (completedSnapshot, 20)]
    (some (.completed completedSnapshot)) [processingSnapshot, completedSnapshot] 2 (by rfl)

/-- C8: when the elapsed time first exceeds maxWaitTime at a non-terminal
snapshot, generateAndWait throws the timeout error whose message states
the configured maxWaitTime bound and which embeds that last observed
snapshot. -/
theorem C8_timeout_error (maxWaitTime : Nat) (req : GenerateVisualRequest)
    (trace : List FetchOutcome) (polls : List (VisualStatusResponse × Nat))
    (resp : GenerateVisualResponse) (hsub : (generate req trace).1 = .ok resp)
    (i : Nat) (hi : i < polls.length)
    (hbefore : ∀ (j : Nat) (hj : j < polls.length), j < i →
      isTerminalStatus ((polls.get ⟨j, hj⟩).1.status) = false ∧
        (polls.get ⟨j, hj⟩).2 ≤ maxWaitTime)
    (hterm : isTerminalStatus ((polls.get ⟨i, hi⟩).1.status) = false)
    (hover : maxWaitTime < (polls.get ⟨i, hi⟩).2) :
    generateAndWait maxWaitTime req trace polls =
      .ok (some (.timeoutErr (timeoutMessage maxWaitTime) (polls.get ⟨i, hi⟩).1),
           (polls.map Prod.fst).take (i + 1), i + 1) ∧
    timeoutMessage maxWaitTime =
      "Visual generation timed out after " ++ toString maxWaitTime ++ "ms" := by
  constructor
  · unfold generateAndWait
    rw [hsub, pollLoop_timeout_at maxWaitTime polls i hi hbefore hterm hover]
  · rfl

theorem C8_timeout_error_witness :
    generateAndWait 300000 sampleRequest [.resp respOk200] [(processingSnapshot, 400000)] =
      .ok (some (.timeoutErr (timeoutMessage 300000) processingSnapshot),
           [processingSnapshot], 1) :=
  (C8_timeout_error 300000 sampleRequest [.resp respOk200] [(processingSnapshot, 400000)]
    pendingResponse (by rfl) 0 (by simp)
    (fun j hj hj0 => absurd hj0 (by omega)) (by decide) (by decide)).1

/-- C10: generateAndWait never uses the submission response's status to
decide termination. Whatever status the parsed submission response
carries, and for every maxWaitTime including zero, at least one getStatus
call is consumed; and a terminal first snapshot decides the outcome
before the timeout test is ever reached, whatever its elapsed time. -/
theorem C10_always_polls_after_submit (maxWaitTime : Nat) (req : GenerateVisualRequest)
    (trace : List FetchOutcome) (polls : List (VisualStatusResponse × Nat))
    (resp : GenerateVisualResponse) (hsub : (generate req trace).1 = .ok resp)
    (hne : polls ≠ []) :
    ∃ res delivered calls,
      generateAndWait maxWaitTime req trace polls = .ok (res, delivered, calls) ∧
      1 ≤ calls ∧
      (∀ s t rest2, polls = (s, t) :: rest2 → s.status = .completed →
        res = some (.completed s)) := by
  unfold generateAndWait
  rw [hsub]
  refine ⟨(pollLoop maxWaitTime polls).1, (pollLoop maxWaitTime polls).2.1,
    (pollLoop maxWaitTime polls).2.2, rfl, ?_, ?_⟩
  · cases polls with
    | nil => exact absurd rfl hne
    | cons p rest => exact pollLoop_calls_pos maxWaitTime p rest
  · intro s t rest2 hp hs
    rw [hp, pollLoop_completed_head maxWaitTime t s rest2 hs]

theorem C10_always_polls_witness :
    ∃ res delivered calls,
      generateAndWait 0 sampleRequest [.resp respOk200Completed] [(completedSnapshot, 5)] =
        .ok (res, delivered, calls) ∧
      1 ≤ calls ∧
      (∀ s t rest2,
        ([(completedSnapshot, 5)] : List (VisualStatusResponse × Nat)) = (s, t) :: rest2 →
        s.status = .completed → res = some (.completed s)) :=
  C10_always_polls_after_submit 0 sampleRequest [.resp respOk200Completed]
    [(completedSnapshot, 5)] completedResponse (by rfl) (by simp)

/-- C3: whenever the polled snapshot sequence contains a terminal
snapshot or an over-deadline sample, as the strictly growing clock of a
real run guarantees, generateAndWait reaches exactly one of the three
outcomes: the completed snapshot is returned; the failed snapshot is
thrown with a message embedding its error; or the timeout error is
thrown at a non-terminal snapshot. The loop also never continues past a
terminal snapshot: through any index whose snapshot is terminal, at most
that many getStatus calls are consumed. -/
theorem C3_terminates_three_ways (maxWaitTime : Nat) (req : GenerateVisualRequest)
    (trace : List FetchOutcome) (polls : List (VisualStatusResponse × Nat))
    (resp : GenerateVisualResponse) (hsub : (generate req trace).1 = .ok resp)
    (hdec : ∃ p ∈ polls, isTerminalStatus p.1.status = true ∨ maxWaitTime < p.2) :
    ∃ r delivered calls,
      generateAndWait maxWaitTime req trace polls = .ok (some r, delivered, calls) ∧
      ((∃ s, r = .completed s ∧ s.status = .completed) ∨
       (∃ s, r = .failedErr (failedMessage s) s ∧ s.status = .failed) ∨
       (∃ s, r = .timeoutErr (timeoutMessage maxWaitTime) s ∧
         isTerminalStatus s.status = false)) ∧
      (∀ (j : Nat) (hj : j < polls.length),
        isTerminalStatus ((polls.get ⟨j, hj⟩).1.status) = true → calls ≤ j + 1) := by
  unfold generateAndWait
  rw [hsub]
  rcases pollLoop_some_of_decider maxWaitTime polls hdec with ⟨r, hr⟩
  refine ⟨r, (pollLoop maxWaitTime polls).2.1, (pollLoop maxWaitTime polls).2.2, ?_, ?_, ?_⟩
  · rw [← hr]
  · exact pollLoop_result_cases maxWaitTime polls r hr
  · intro j hj hterm
    exact pollLoop_stops_at_terminal maxWaitTime polls j hj hterm

theorem C3_terminates_witness :
    ∃ r delivered calls,
      generateAndWait 300000 sampleRequest [.resp respOk200]
        [(processingSnapshot, 10), (failedSnapshot, 20)] = .ok (some r, delivered, calls) ∧
      ((∃ s, r = .completed s ∧ s.status = .completed) ∨
       (∃ s, r = .failedErr (failedMessage s) s ∧ s.status = .failed) ∨
       (∃ s, r = .timeoutErr (timeoutMessage 300000) s ∧
         isTerminalStatus s.status = false)) ∧
      (∀ (j : Nat)
        (hj : j < ([(processingSnapshot, 10), (failedSnapshot, 20)] :
          List (VisualStatusResponse × Nat)).length),
        isTerminalStatus ((([(processingSnapshot, 10), (failedSnapshot, 20)] :
          List (VisualStatusResponse × Nat)).get ⟨j, hj⟩).1.status) = true →
        calls ≤ j + 1) :=
  C3_terminates_three_ways 300000 sampleRequest [.resp respOk200]
    [(processingSnapshot, 10), (failedSnapshot, 20)] pendingResponse (by rfl)
    ⟨(failedSnapshot, 20), by simp, Or.inl (by decide)⟩

theorem requestWithRetry_all_retries_succeed :
    ∀ (k a : Nat), k + a ≤ maxRetryAttempts →
      requestWithRetry (List.replicate k (.resp resp503) ++ [.resp respOk200]) a =
        (.ok respOk200.jsonBody, k + 1,
         (List.range k).map fun i => retryBaseDelayMs * 2 ^ (a + i)) := by
  intro k
  induction k with
  | zero =>
    intro a ha
    simp [requestWithRetry, respOk, respOk200]
  | succ k2 ih =>
    intro a ha
    have hlt : a < maxRetryAttempts := by
      simp only [maxRetryAttempts] at ha ⊢
      omega
    have hrec := ih (a + 1) (by omega)
    simp only [List.replicate_succ, List.cons_append, requestWithRetry]
    rw [if_neg (by simp [respOk, resp503]),
      if_pos (by simp [isRetryableStatus, resp503, hlt])]
    simp only [List.append_eq]
    rw [hrec]
    dsimp only
    refine congrArg (fun l =>
      ((Except.ok respOk200.jsonBody : Except ClientError JsonVal), k2 + 1 + 1, l)) ?_
    rw [List.range_succ_eq_map, List.map_cons, List.map_map]
    refine congrArg₂ (fun x l => List.cons x l) (by simp) ?_
    refine List.map_congr_left ?_
    intro i hi
    simp only [Function.comp]
    refine congrArg (fun e => retryBaseDelayMs * 2 ^ e) ?_
    omega

theorem requestWithRetry_exhausted :
    ∀ (k a : Nat), a ≤ maxRetryAttempts → maxRetryAttempts - a < k →
      requestWithRetry (List.replicate k (.resp resp503) ++ [.resp respOk200]) a =
        (.error (.api { message := "API request failed: 503 Service Unavailable",
                        statusCode := some 503, responseBody := some "Service down" }),
         maxRetryAttempts - a + 1,
         (List.range (maxRetryAttempts - a)).map fun i => retryBaseDelayMs * 2 ^ (a + i)) := by
  intro k
  induction k with
  | zero =>
    intro a ha hk
    omega
  | succ k2 ih =>
    intro a ha hk
    by_cases hfull : a = maxRetryAttempts
    · subst hfull
      simp only [List.replicate_succ, List.cons_append, requestWithRetry]
      rw [if_neg (by simp [respOk, resp503]), if_neg (by simp)]
      simp only [resp503, Nat.sub_self, List.range_zero, List.map_nil]
      refine congrArg (fun m =>
        ((Except.error (ClientError.api
          { message := m, statusCode := some 503, responseBody := some "Service down" }) :
            Except ClientError JsonVal), 1, ([] : List Nat))) ?_
      decide
    · have hlt : a < maxRetryAttempts := by omega
      have hk2 : maxRetryAttempts - (a + 1) < k2 := by omega
      have hrec := ih (a + 1) (by omega) hk2
      simp only [List.replicate_succ, List.cons_append, requestWithRetry]
      rw [if_neg (by simp [respOk, resp503]),
        if_pos (by simp [isRetryableStatus, resp503, hlt])]
      simp only [List.append_eq]
      rw [hrec]
      dsimp only
      refine congrArg₂ (fun n l =>
        ((Except.error (ClientError.api
          { message := "API request failed: 503 Service Unavailable",
            statusCode := some 503, responseBody := some "Service down" }) :
              Except ClientError JsonVal), n, l)) ?_ ?_
      · omega
      · have hsplit : maxRetryAttempts - a = maxRetryAttempts - (a + 1) + 1 := by omega
        rw [hsplit, List.range_succ_eq_map, List.map_cons, List.map_map]
        refine congrArg₂ (fun x l => List.cons x l) (by simp) ?_
        refine List.map_congr_left ?_
        intro i hi
        simp only [Function.comp]
        refine congrArg (fun e => retryBaseDelayMs * 2 ^ e) ?_
        omega

/-- C1: the retry policy of the shared transport wrapper, which all of
generate, getStatus and downloadFile go through. A non-retryable non-2xx
response fails immediately after exactly one network call with its status
attached; N consecutive 503 responses followed by a 200 make generate
succeed exactly when N is at most the retry budget, consuming N + 1 calls
and sleeping the doubling backoff delays; and exceeding the budget
surfaces the last 503 as a NapkinApiError with status code 503 after
maxRetryAttempts + 1 calls. -/
theorem C1_retry_policy :
    (∀ (r : HttpResponse) (rest : List FetchOutcome),
      respOk r = false → isRetryableStatus r.status = false →
      requestWithRetry (.resp r :: rest) 0 =
        (.error (.api {
          message := "API request failed: " ++ toString r.status ++ " " ++ r.statusText,
          statusCode := some r.status, responseBody := some r.textBody }), 1, [])) ∧
    (∀ N : Nat,
      ((generateWithRetry (List.replicate N (.resp resp503) ++ [.resp respOk200])).1 =
        .ok pendingResponse) ↔ N ≤ maxRetryAttempts) ∧
    (∀ N : Nat, N ≤ maxRetryAttempts →
      generateWithRetry (List.replicate N (.resp resp503) ++ [.resp respOk200]) =
        (.ok pendingResponse, N + 1,
         (List.range N).map fun i => retryBaseDelayMs * 2 ^ i)) ∧
    (∀ N : Nat, maxRetryAttempts < N →
      generateWithRetry (List.replicate N (.resp resp503) ++ [.resp respOk200]) =
        (.error (.api { message := "API request failed: 503 Service Unavailable",
                        statusCode := some 503, responseBody := some "Service down" }),
         maxRetryAttempts + 1,
         (List.range maxRetryAttempts).map fun i => retryBaseDelayMs * 2 ^ i)) := by
  have hsucc : ∀ N : Nat, N ≤ maxRetryAttempts →
      generateWithRetry (List.replicate N (.resp resp503) ++ [.resp respOk200]) =
        (.ok pendingResponse, N + 1,
         (List.range N).map fun i => retryBaseDelayMs * 2 ^ i) := by
    intro N hN
    have h := requestWithRetry_all_retries_succeed N 0 (by omega)
    simp only [generateWithRetry, h]
    rw [show parseGenerateVisualResponse respOk200.jsonBody = some pendingResponse from rfl]
    simp
  have hfail : ∀ N : Nat, maxRetryAttempts < N →
      generateWithRetry (List.replicate N (.resp resp503) ++ [.resp respOk200]) =
        (.error (.api { message := "API request failed: 503 Service Unavailable",
                        statusCode := some 503, responseBody := some "Service down" }),
         maxRetryAttempts + 1,
         (List.range maxRetryAttempts).map fun i => retryBaseDelayMs * 2 ^ i) := by
    intro N hN
    have h := requestWithRetry_exhausted N 0 (by omega) (by omega)
    simp only [generateWithRetry, h, Nat.sub_zero, Nat.zero_add]
  refine ⟨?_, ?_, hsucc, hfail⟩
  · intro r rest hno hnr
    simp [requestWithRetry, hno, hnr]
  · intro N
    constructor
    · intro hok
      by_contra hgt
      rw [hfail N (by omega)] at hok
      cases hok
    · intro hle
      rw [hsucc N hle]

theorem C1_retry_policy_witness :
    (requestWithRetry [.resp resp400] 0 =
      (.error (.api { message := "API request failed: 400 Bad Request",
                      statusCode := some 400, responseBody := some "Invalid input" }), 1, [])) ∧
    (generateWithRetry (List.replicate 3 (.resp resp503) ++ [.resp respOk200]) =
      (.ok pendingResponse, 4,
       [retryBaseDelayMs, retryBaseDelayMs * 2, retryBaseDelayMs * 4])) ∧
    (generateWithRetry (List.replicate 4 (.resp resp503) ++ [.resp respOk200]) =
      (.error (.api { message := "API request failed: 503 Service Unavailable",
                      statusCode := some 503, responseBody := some "Service down" }),
       4, [retryBaseDelayMs, retryBaseDelayMs * 2, retryBaseDelayMs * 4])) := by
  refine ⟨C1_retry_policy.1 resp400 [] (by decide) (by decide), ?_, ?_⟩
  · have h := C1_retry_policy.2.2.1 3 (by decide)
    rw [h]
    rfl
  · have h := C1_retry_policy.2.2.2 4 (by decide)
    rw [h]
    rfl

/-- C2, the code evaluated at the failing inputs: the request schema
accepts a request carrying both visual_id and visual_query, and one
whose visual_ids length differs from number_of_visuals, and generate
issues the network call for the conflicting request (the trace head is
consumed) and returns the parsed response instead of any validation
error. -/
theorem C2_no_cross_field_validation :
    parseGenerateVisualRequest conflictingRequestJson = some conflictingRequest ∧
    parseGenerateVisualRequest mismatchedRequestJson = some mismatchedRequest ∧
    (generate conflictingRequest [.resp respOk200]).1 = .ok pendingResponse ∧
    (generate conflictingRequest [.resp respOk200]).2 = [] := by
  exact ⟨rfl, rfl, rfl, rfl⟩

end NapkinMcp
